import Mathlib

/-!
Shallow embedding of the Intel PCH thermal sensor driver
(`src/kernel/dev/thermal/intel_pch_thermal/thermal.cpp`): the threshold
codec, the process-wide singleton claim state, and the lifecycle
operations probe / startup / cleanup / shutdown / release, with their
effects on the driver context and the three hardware register fields.

External collaborators (PCIe framework, VMM) are modelled by an
environment record carrying the status each external call would return,
and by events recording the externally visible actions in program order.
-/

namespace PchThermal

/-! ## Constants (thermal.cpp) -/

/-- `INTEL_VID` from thermal.cpp. -/
def INTEL_VID : Nat := 0x8086

/-- `intel_dids` from thermal.cpp: the supported device-id allow-list. -/
def intel_dids : List Nat := [0x3a32, 0x9ca4]

/-- `NO_ERROR` status code. -/
def NO_ERROR : Int := 0

/-- `ERR_INVALID_ARGS` status code (magenta error value). -/
def ERR_INVALID_ARGS : Int := -10

/-- Platform page size used by `ROUNDUP(bar_info->size, PAGE_SIZE)`. -/
def PAGE_SIZE : Nat := 4096

/-- Cardinality of `uint64_t`, the type of `bar_info->size`. -/
def UINT64_CARD : Nat := 2 ^ 64

/-- `ROUNDUP(x, PAGE_SIZE)` in `uint64_t` arithmetic: add `PAGE_SIZE - 1`
(with 64-bit wraparound) and clear the low bits. -/
def roundupPage (x : Nat) : Nat :=
  (((x + (PAGE_SIZE - 1)) % UINT64_CARD) / PAGE_SIZE) * PAGE_SIZE

/-! ## Threshold codec -/

/-- Modelled from the spec: `decode_temp` lives in `pch_thermal.h`, which is
not under `src/`.  The spec describes the codec as the PCH family's fixed
published fixed-point scheme: raw values are half-degree steps offset by
-50 degrees, so decoding divides by two and subtracts 50
(`decode(raw: 9-bit unsigned) -> signed degrees`). -/
def decode_temp (raw : Nat) : Int :=
  (raw : Int) / 2 - 50

/-- Modelled from the spec: `encode_temp` lives in `pch_thermal.h`, which is
not under `src/`.  Inverse direction of the same fixed-point scheme: add 50
degrees and multiply by two, truncated to the 16-bit register width
(`encode(degrees: signed) -> 9-bit unsigned` for in-range degrees). -/
def encode_temp (t : Int) : Nat :=
  (((t + 50) * 2) % 65536).toNat

/-! ## Data model -/

/-- The three hardware register fields the driver touches: `tsel`
(sensor-enable/mode byte), `ctt` (catastrophic trip threshold, 9-bit
packed temperature in a 16-bit field), `tsc` (trip-action byte). -/
structure PchThermalRegisters where
  tsel : Nat
  ctt : Nat
  tsc : Nat
deriving DecidableEq

/-- `struct pch_thermal_context`: the process-wide singleton driver state.
`aspace` holds the VMM address-space handle while present, `regs` the
mapped register-window address while present (absent = `NULL`). -/
structure PchThermalContext where
  device_claimed : Bool
  aspace : Option Nat
  regs : Option Nat
deriving DecidableEq

/-- Combined state: the singleton context plus the hardware register
fields the mapped window gives access to. -/
structure DriverState where
  ctx : PchThermalContext
  hw : PchThermalRegisters
deriving DecidableEq

/-- The initial, unclaimed and unmapped singleton (static zero
initialization of `g_pch_thermal_context`), over arbitrary hardware
register contents. -/
def initial_state (hw : PchThermalRegisters) : DriverState :=
  { ctx := { device_claimed := false, aspace := none, regs := none }, hw := hw }

/-- Externally visible actions, recorded in program order together with
the driver state right after each action. -/
inductive Ev where
  | setAspace
  | irqDisable
  | clearSensor
  | unmapRegs
  | clearFields
  | mmioEnable
  | storeRegs
  | enableSensor
  | clampCtt
  | writeTsc
deriving DecidableEq

/-! ## pch_thermal_cleanup -/

/-- `pch_thermal_cleanup`: if the device handle is valid, disable IRQs at
the bus level; if `regs` is mapped, clear the sensor-enable bit in `tsel`
and free the VMM region; finally set `aspace` and `regs` to `NULL`.
Returns the new state and the trace of actions. -/
def pch_thermal_cleanup (deviceValid : Bool) (s : DriverState) :
    DriverState × List (Ev × DriverState) :=
  let tr0 : List (Ev × DriverState) := if deviceValid then [(Ev.irqDisable, s)] else []
  if s.ctx.regs.isSome then
    let s1 : DriverState := { s with hw := { s.hw with tsel := s.hw.tsel &&& 0xfe } }
    let s2 : DriverState := { s1 with ctx := { s1.ctx with aspace := none, regs := none } }
    (s2, tr0 ++ [(Ev.clearSensor, s1), (Ev.unmapRegs, s1), (Ev.clearFields, s2)])
  else
    let s2 : DriverState := { s with ctx := { s.ctx with aspace := none, regs := none } }
    (s2, tr0 ++ [(Ev.clearFields, s2)])

/-! ## pch_thermal_probe -/

/-- The value of a successful probe: the code returns
`&g_pch_thermal_context`, a pointer to the one process-wide singleton. -/
inductive Handle where
  | theSingleton
deriving DecidableEq

/-- The vendor/device identity exposed by a `pcie_device_state_t`. -/
structure DeviceId where
  vendor_id : Nat
  device_id : Nat
deriving DecidableEq

/-- `pch_thermal_probe`: refuse if already claimed; otherwise scan the
allow-list under the Intel vendor id; on a match set `device_claimed` and
return the singleton handle, else return `NULL` with no state change. -/
def pch_thermal_probe (dev : DeviceId) (s : DriverState) :
    Option Handle × DriverState :=
  if s.ctx.device_claimed then (none, s)
  else if dev.vendor_id == INTEL_VID && intel_dids.any (fun d => dev.device_id == d) then
    (some Handle.theSingleton,
      { s with ctx := { s.ctx with device_claimed := true } })
  else (none, s)

/-! ## pch_thermal_startup -/

/-- Result of startup: either a returned `status_t`, or a
`DEBUG_ASSERT` firing (fatal internal-consistency fault, no return). -/
inductive Outcome where
  | ret (status : Int)
  | assertFail
deriving DecidableEq

/-- `pcie_bar_info_t` fields the driver reads: bus address and size of
BAR 0 (both `uint64_t`). -/
structure BarInfo where
  bus_addr : Nat
  size : Nat
deriving DecidableEq

/-- Environment for one startup attempt: results of the external
framework calls, and platform parameters (`paddr_t`/`size_t` maxima,
kernel address-space handle, mapped address on VMM success). -/
structure StartupEnv where
  driver_ctx_bound : Bool
  bar : Option BarInfo
  irq_mode_status : Int
  irq_register_status : Int
  alloc_status : Int
  vaddr : Nat
  unmask_status : Int
  paddrMax : Nat
  sizeMax : Nat
  kernel_aspace : Nat
deriving DecidableEq

/-- The `finished:` label of `pch_thermal_startup`: on a failing status,
run `pch_thermal_cleanup` before returning it. -/
def startup_finish (st : Int) (s : DriverState) (tr : List (Ev × DriverState)) :
    Outcome × DriverState × List (Ev × DriverState) :=
  if st ≠ NO_ERROR then
    let c := pch_thermal_cleanup true s
    (Outcome.ret st, c.1, tr ++ c.2)
  else (Outcome.ret st, s, tr)

/-- The catastrophic-trip-threshold step of startup: decode the low nine
bits of `ctt`; if at or above 113 degrees, overwrite `ctt` with the
encoding of 113, else leave the register unchanged. -/
def threshold_step (hw : PchThermalRegisters) : PchThermalRegisters :=
  let current_ctt := decode_temp (hw.ctt &&& 0x1ff)
  if current_ctt ≥ 113 then { hw with ctt := encode_temp 113 } else hw

/-- `pch_thermal_startup`: assert `regs` absent and the driver context
bound; record the kernel aspace; assert BAR 0 present with a nonzero bus
address; select legacy IRQ mode; register the IRQ handler; validate the
address range (`ERR_INVALID_ARGS` on overflow); map the registers; enable
MMIO; store the mapped pointer; enable the sensor bit; clamp the trip
threshold; enable trip poweroff; unmask the IRQ.  Any failing status
jumps to `startup_finish`. -/
def pch_thermal_startup (env : StartupEnv) (s0 : DriverState) :
    Outcome × DriverState × List (Ev × DriverState) :=
  if s0.ctx.regs.isSome then (Outcome.assertFail, s0, [])
  else if ¬env.driver_ctx_bound then (Outcome.assertFail, s0, [])
  else
    let s1 : DriverState := { s0 with ctx := { s0.ctx with aspace := some env.kernel_aspace } }
    let tr1 : List (Ev × DriverState) := [(Ev.setAspace, s1)]
    match env.bar with
    | none => (Outcome.assertFail, s1, tr1)
    | some bar =>
      if bar.bus_addr = 0 then (Outcome.assertFail, s1, tr1)
      else if env.irq_mode_status ≠ NO_ERROR then
        startup_finish env.irq_mode_status s1 tr1
      else if env.irq_register_status ≠ NO_ERROR then
        startup_finish env.irq_register_status s1 tr1
      else if bar.bus_addr > env.paddrMax ∨ roundupPage bar.size > env.sizeMax then
        startup_finish ERR_INVALID_ARGS s1 tr1
      else if env.alloc_status ≠ NO_ERROR then
        startup_finish env.alloc_status s1 tr1
      else if env.vaddr = 0 then (Outcome.assertFail, s1, tr1)
      else
        let s2 : DriverState := { s1 with ctx := { s1.ctx with regs := some env.vaddr } }
        let s3 : DriverState := { s2 with hw := { s2.hw with tsel := (s2.hw.tsel ||| 1) % 256 } }
        let s4 : DriverState := { s3 with hw := threshold_step s3.hw }
        let s5 : DriverState := { s4 with hw := { s4.hw with tsc := (s4.hw.tsc ||| 1) % 256 } }
        let tr5 := tr1 ++ [(Ev.mmioEnable, s1), (Ev.storeRegs, s2), (Ev.enableSensor, s3),
                           (Ev.clampCtt, s4), (Ev.writeTsc, s5)]
        startup_finish env.unmask_status s5 tr5

/-! ## pch_thermal_shutdown and pch_thermal_release -/

/-- `pch_thermal_shutdown`: assert the singleton is the device's driver
context, then run cleanup.  `none` models the assertion firing. -/
def pch_thermal_shutdown (deviceBound : Bool) (s : DriverState) :
    Option (DriverState × List (Ev × DriverState)) :=
  if deviceBound then some (pch_thermal_cleanup true s) else none

/-- `pch_thermal_release`: assert the context pointer matches the
singleton and `regs` is absent, then clear `device_claimed`.  `none`
models an assertion firing. -/
def pch_thermal_release (ctxBound : Bool) (s : DriverState) : Option DriverState :=
  if ctxBound then
    if s.ctx.regs.isSome then none
    else some { s with ctx := { s.ctx with device_claimed := false } }
  else none

/-! ## Concrete instances used for witnesses and counterexamples -/

/-- A supported identity: Intel vendor with the first allow-listed id. -/
def dev_supported : DeviceId := { vendor_id := 0x8086, device_id := 0x3a32 }

/-- A startup environment in which every external framework call
succeeds, over BAR 0 = (bus 0x1000, size 0x100) on a 64-bit platform. -/
def env_ok : StartupEnv :=
  { driver_ctx_bound := true
    bar := some { bus_addr := 0x1000, size := 0x100 }
    irq_mode_status := NO_ERROR
    irq_register_status := NO_ERROR
    alloc_status := NO_ERROR
    vaddr := 0xffff0000
    unmask_status := NO_ERROR
    paddrMax := 2 ^ 64 - 1
    sizeMax := 2 ^ 64 - 1
    kernel_aspace := 1 }

/-- `env_ok` with the VMM mapping call failing. -/
def env_map_fail : StartupEnv := { env_ok with alloc_status := -1 }

/-- `env_ok` with no BAR 0 at all. -/
def env_no_bar : StartupEnv := { env_ok with bar := none }

/-- `env_ok` with a present but zero-sized BAR 0. -/
def env_zero_size : StartupEnv :=
  { env_ok with bar := some { bus_addr := 0x1000, size := 0 } }

/-- A claimed, unmapped driver state (the state right after a successful
probe) with all-zero hardware registers. -/
def claimed_state : DriverState :=
  { ctx := { device_claimed := true, aspace := none, regs := none }
    hw := { tsel := 0, ctt := 0, tsc := 0 } }

/-! ## Theorems -/

/-- C1: Clamp law for startup's threshold step: when the low nine bits of
`ctt` decode to at least 113 degrees, the step stores exactly
`encode_temp 113` (which decodes back to 113); when they decode to below
113, the step leaves the registers unchanged. -/
theorem startup_ctt_clamp (hw : PchThermalRegisters) :
    (decode_temp (hw.ctt &&& 0x1ff) ≥ 113 →
      (threshold_step hw).ctt = encode_temp 113 ∧
      decode_temp ((threshold_step hw).ctt &&& 0x1ff) = 113) ∧
    (decode_temp (hw.ctt &&& 0x1ff) < 113 → threshold_step hw = hw) := by
  constructor
  · intro h
    have hstep : threshold_step hw = { hw with ctt := encode_temp 113 } := by
      unfold threshold_step
      simp [h]
    rw [hstep]
    refine ⟨rfl, ?_⟩
    show decode_temp (encode_temp 113 &&& 0x1ff) = 113
    decide
  · intro h
    have hneg : ¬ (decode_temp (hw.ctt &&& 0x1ff) ≥ 113) := not_le.mpr h
    simp [threshold_step, hneg]

/-- Witness for C1 at a concrete register state: `ctt = 500` decodes to
200 ≥ 113 and is clamped to `encode_temp 113 = 326`; `ctt = 270` decodes
to 85 < 113 and is left unchanged. -/
theorem startup_ctt_clamp_witness :
    (threshold_step { tsel := 0, ctt := 500, tsc := 0 }).ctt = encode_temp 113 ∧
    threshold_step { tsel := 0, ctt := 270, tsc := 0 } = { tsel := 0, ctt := 270, tsc := 0 } := by
  refine ⟨((startup_ctt_clamp { tsel := 0, ctt := 500, tsc := 0 }).1 (by decide)).1, ?_⟩
  exact (startup_ctt_clamp { tsel := 0, ctt := 270, tsc := 0 }).2 (by decide)

/-- C7: Round-trip law for the threshold codec: for every degree value in
the representable range (-50 to 205, the image of the 9-bit raw range),
`decode_temp (encode_temp d) = d`, and the encoding fits in nine bits. -/
theorem decode_encode_roundtrip (d : Int) (h1 : -50 ≤ d) (h2 : d ≤ 205) :
    decode_temp (encode_temp d) = d ∧ encode_temp d < 512 := by
  unfold decode_temp encode_temp
  have h50 : 0 ≤ d + 50 := by omega
  have hlt : (d + 50) * 2 < 65536 := by omega
  have hmod : ((d + 50) * 2) % 65536 = (d + 50) * 2 :=
    Int.emod_eq_of_lt (by omega) hlt
  rw [hmod]
  constructor
  · have htn : (((d + 50) * 2).toNat : Int) = (d + 50) * 2 := Int.toNat_of_nonneg (by omega)
    rw [htn]
    omega
  · omega

/-- Witness for C7 at d = 113: encoding gives 326 and decoding returns
113. -/
theorem decode_encode_roundtrip_witness :
    decode_temp (encode_temp 113) = 113 ∧ encode_temp 113 < 512 :=
  decode_encode_roundtrip 113 (by decide) (by decide)

/-- C3: probe grants the claim (returning the singleton handle and
setting `device_claimed`) exactly when the singleton is unclaimed, the
vendor id is 0x8086, and the device id is in the allow-list; in every
other case it returns `NULL` and leaves the state unchanged. -/
theorem probe_claim_iff (dev : DeviceId) (s : DriverState) :
    ((pch_thermal_probe dev s).1.isSome ↔
      (s.ctx.device_claimed = false ∧ dev.vendor_id = INTEL_VID ∧
        dev.device_id ∈ intel_dids)) ∧
    ((pch_thermal_probe dev s).1.isSome →
      (pch_thermal_probe dev s).2 =
        { s with ctx := { s.ctx with device_claimed := true } }) ∧
    ((pch_thermal_probe dev s).1 = none → (pch_thermal_probe dev s).2 = s) := by
  unfold pch_thermal_probe
  by_cases hc : s.ctx.device_claimed
  · simp [hc]
  · by_cases hm : (dev.vendor_id == INTEL_VID &&
      intel_dids.any (fun d => dev.device_id == d)) = true
    · rw [if_neg hc, if_pos hm]
      refine ⟨?_, fun _ => rfl, by simp⟩
      simp only [Option.isSome_some, true_iff]
      rw [Bool.and_eq_true, beq_iff_eq, List.any_eq_true] at hm
      obtain ⟨hv, x, hx, he⟩ := hm
      rw [beq_iff_eq] at he
      exact ⟨by simpa using hc, hv, he ▸ hx⟩
    · rw [if_neg hc, if_neg hm]
      refine ⟨?_, by simp, fun _ => rfl⟩
      simp only [Option.isSome_none, Bool.false_eq_true, false_iff]
      rintro ⟨-, hv, hd⟩
      apply hm
      rw [Bool.and_eq_true, beq_iff_eq, List.any_eq_true]
      exact ⟨hv, dev.device_id, hd, by simp⟩

/-- Witness for C3: a fresh singleton and the identity (0x8086, 0x3a32)
are granted the claim, and a claimed singleton refuses it. -/
theorem probe_claim_iff_witness :
    (pch_thermal_probe { vendor_id := 0x8086, device_id := 0x3a32 }
        (initial_state { tsel := 0, ctt := 0, tsc := 0 })).1.isSome := by
  exact (probe_claim_iff { vendor_id := 0x8086, device_id := 0x3a32 }
    (initial_state { tsel := 0, ctt := 0, tsc := 0 })).1.mpr
    ⟨rfl, rfl, by decide⟩

/-- C10: the allow-list is exactly [0x3a32, 0x9ca4]; probe with
(0x8086, 0x9ca4) on the unclaimed singleton is granted the claim; and
every successful probe returns the same handle, the pointer to the one
process-wide singleton context. -/
theorem probe_allowlist_exact :
    intel_dids = [0x3a32, 0x9ca4] ∧
    (∀ hw, (pch_thermal_probe { vendor_id := 0x8086, device_id := 0x9ca4 }
        (initial_state hw)).1 = some Handle.theSingleton) ∧
    (∀ dev s h, (pch_thermal_probe dev s).1 = some h → h = Handle.theSingleton) := by
  exact ⟨rfl, fun hw => rfl, fun dev s h _ => by cases h; rfl⟩

/-- Witness for C10: the universally quantified part applied at the
identity (0x8086, 0x9ca4) on a fresh singleton. -/
theorem probe_allowlist_exact_witness :
    Handle.theSingleton = Handle.theSingleton ∧
    (pch_thermal_probe { vendor_id := 0x8086, device_id := 0x9ca4 }
        (initial_state { tsel := 0, ctt := 0, tsc := 0 })).1 = some Handle.theSingleton :=
  ⟨probe_allowlist_exact.2.2 { vendor_id := 0x8086, device_id := 0x9ca4 }
      (initial_state { tsel := 0, ctt := 0, tsc := 0 }) Handle.theSingleton (by decide),
    probe_allowlist_exact.2.1 { tsel := 0, ctt := 0, tsc := 0 }⟩

/-- C5: cleanup is idempotent — running it on the state a first cleanup
produced changes nothing (the second run checks `regs` for absence and
touches neither the register block nor the mapping); on any state with
`regs` absent the hardware registers are untouched. -/
theorem cleanup_idempotent (dv : Bool) (s : DriverState) :
    (pch_thermal_cleanup dv (pch_thermal_cleanup dv s).1).1 =
      (pch_thermal_cleanup dv s).1 ∧
    (s.ctx.regs = none → ((pch_thermal_cleanup dv s).1).hw = s.hw) := by
  unfold pch_thermal_cleanup
  by_cases hr : s.ctx.regs.isSome
  · constructor
    · simp [hr]
    · intro hnone
      rw [hnone] at hr
      simp at hr
  · simp [hr]

/-- Witness for C5 on a concrete already-torn-down state. -/
theorem cleanup_idempotent_witness :
    ((pch_thermal_cleanup true
        { ctx := { device_claimed := true, aspace := none, regs := none },
          hw := { tsel := 7, ctt := 300, tsc := 1 } }).1).hw =
      { tsel := 7, ctt := 300, tsc := 1 } :=
  (cleanup_idempotent true
    { ctx := { device_claimed := true, aspace := none, regs := none },
      hw := { tsel := 7, ctt := 300, tsc := 1 } }).2 rfl

/-- C6: cleanup's action order is always bus-level interrupt-disable
first (when the device handle is valid), then — only if registers are
mapped — clearing the sensor-enable bit of `tsel` and releasing the
mapping, then finally setting both `aspace` and `regs` to absent; the
claim flag is never cleared, and `tsel` bit 0 is cleared exactly when
registers were mapped. -/
theorem cleanup_order_claim (dv : Bool) (s : DriverState) :
    (pch_thermal_cleanup dv s).2.map Prod.fst =
      (if dv then [Ev.irqDisable] else []) ++
      (if s.ctx.regs.isSome then [Ev.clearSensor, Ev.unmapRegs] else []) ++
      [Ev.clearFields] ∧
    ((pch_thermal_cleanup dv s).1).ctx.device_claimed = s.ctx.device_claimed ∧
    ((pch_thermal_cleanup dv s).1).ctx.aspace = none ∧
    ((pch_thermal_cleanup dv s).1).ctx.regs = none ∧
    ((pch_thermal_cleanup dv s).1).hw.tsel =
      (if s.ctx.regs.isSome then s.hw.tsel &&& 0xfe else s.hw.tsel) := by
  unfold pch_thermal_cleanup
  by_cases hr : s.ctx.regs.isSome
  · cases dv <;> simp [hr]
  · cases dv <;> simp [hr]

/-- Helper: the state cleanup produces has `regs` and `aspace` absent,
preserves the claim flag, and its trace ends with the clear-fields
action at exactly the returned state. -/
lemma cleanup_post (dv : Bool) (s : DriverState) :
    ((pch_thermal_cleanup dv s).1).ctx.regs = none ∧
    ((pch_thermal_cleanup dv s).1).ctx.aspace = none ∧
    ((pch_thermal_cleanup dv s).1).ctx.device_claimed = s.ctx.device_claimed ∧
    ∃ tr, (pch_thermal_cleanup dv s).2 =
      tr ++ [(Ev.clearFields, (pch_thermal_cleanup dv s).1)] := by
  by_cases hr : s.ctx.regs.isSome
  · refine ⟨by simp [pch_thermal_cleanup, hr], by simp [pch_thermal_cleanup, hr],
      by simp [pch_thermal_cleanup, hr], ?_⟩
    refine ⟨(if dv then [(Ev.irqDisable, s)] else []) ++
      [(Ev.clearSensor, { s with hw := { s.hw with tsel := s.hw.tsel &&& 0xfe } }),
       (Ev.unmapRegs, { s with hw := { s.hw with tsel := s.hw.tsel &&& 0xfe } })], ?_⟩
    simp [pch_thermal_cleanup, hr]
  · refine ⟨by simp [pch_thermal_cleanup, hr], by simp [pch_thermal_cleanup, hr],
      by simp [pch_thermal_cleanup, hr], ?_⟩
    refine ⟨if dv then [(Ev.irqDisable, s)] else [], ?_⟩
    simp [pch_thermal_cleanup, hr]

/-- Helper: when the status handed to the `finished:` label is an error,
the returned state is the cleanup of the pre-failure state. -/
lemma startup_finish_fail_post (stv : Int) (h : stv ≠ NO_ERROR) (s : DriverState)
    (tr : List (Ev × DriverState)) :
    ((startup_finish stv s tr).2.1).ctx.regs = none ∧
    ((startup_finish stv s tr).2.1).ctx.aspace = none ∧
    ((startup_finish stv s tr).2.1).ctx.device_claimed = s.ctx.device_claimed ∧
    ∃ tr2, (startup_finish stv s tr).2.2 =
      tr2 ++ [(Ev.clearFields, (startup_finish stv s tr).2.1)] := by
  unfold startup_finish
  rw [if_pos h]
  obtain ⟨h1, h2, h3, tr3, htr⟩ := cleanup_post true s
  refine ⟨h1, h2, h3, tr ++ tr3, ?_⟩
  simp only [htr]
  exact (List.append_assoc tr tr3 _).symm

/-- Helper: branch analysis of startup through an equation hypothesis —
when startup returns a failing status, the returned state is the result
of cleanup and the trace ends with the clear-fields step. -/
lemma startup_post_fail (env : StartupEnv) (s0 : DriverState) (o : Outcome)
    (s : DriverState) (tr : List (Ev × DriverState))
    (heq : pch_thermal_startup env s0 = (o, s, tr)) (st : Int)
    (ho : o = Outcome.ret st) (hfail : st ≠ NO_ERROR) :
    s.ctx.regs = none ∧ s.ctx.aspace = none ∧
    s.ctx.device_claimed = s0.ctx.device_claimed ∧
    ∃ tr2, tr = tr2 ++ [(Ev.clearFields, s)] := by
  subst ho
  unfold pch_thermal_startup at heq
  split at heq
  · simp at heq
  · split at heq
    · simp at heq
    · split at heq
      · simp at heq
      · split at heq
        · simp at heq
        · split at heq
          next hc =>
            unfold startup_finish at heq
            rw [if_pos hc] at heq
            simp only [Prod.mk.injEq, Outcome.ret.injEq] at heq
            obtain ⟨-, hs, htr⟩ := heq
            subst hs htr
            obtain ⟨h1, h2, h3, tr3, htr3⟩ := cleanup_post true _
            exact ⟨h1, h2, h3, _ ++ tr3, by rw [htr3, ← List.append_assoc]⟩
          · split at heq
            next hc =>
              unfold startup_finish at heq
              rw [if_pos hc] at heq
              simp only [Prod.mk.injEq, Outcome.ret.injEq] at heq
              obtain ⟨-, hs, htr⟩ := heq
              subst hs htr
              obtain ⟨h1, h2, h3, tr3, htr3⟩ := cleanup_post true _
              exact ⟨h1, h2, h3, _ ++ tr3, by rw [htr3, ← List.append_assoc]⟩
            · split at heq
              · unfold startup_finish at heq
                rw [if_pos (by decide : ERR_INVALID_ARGS ≠ NO_ERROR)] at heq
                simp only [Prod.mk.injEq, Outcome.ret.injEq] at heq
                obtain ⟨-, hs, htr⟩ := heq
                subst hs htr
                obtain ⟨h1, h2, h3, tr3, htr3⟩ := cleanup_post true _
                exact ⟨h1, h2, h3, _ ++ tr3, by rw [htr3, ← List.append_assoc]⟩
              · split at heq
                next hc =>
                  unfold startup_finish at heq
                  rw [if_pos hc] at heq
                  simp only [Prod.mk.injEq, Outcome.ret.injEq] at heq
                  obtain ⟨-, hs, htr⟩ := heq
                  subst hs htr
                  obtain ⟨h1, h2, h3, tr3, htr3⟩ := cleanup_post true _
                  exact ⟨h1, h2, h3, _ ++ tr3, by rw [htr3, ← List.append_assoc]⟩
                · split at heq
                  · simp at heq
                  · by_cases hu : env.unmask_status = NO_ERROR
                    · unfold startup_finish at heq
                      rw [if_neg (fun hne => hne hu)] at heq
                      simp only [Prod.mk.injEq, Outcome.ret.injEq] at heq
                      exact absurd (heq.1 ▸ hu) hfail
                    · unfold startup_finish at heq
                      rw [if_pos hu] at heq
                      simp only [Prod.mk.injEq, Outcome.ret.injEq] at heq
                      obtain ⟨-, hs, htr⟩ := heq
                      subst hs htr
                      obtain ⟨h1, h2, h3, tr3, htr3⟩ := cleanup_post true _
                      exact ⟨h1, h2, h3, _ ++ tr3, by rw [htr3, ← List.append_assoc]⟩

/-- C2: if startup returns a failing status (any of the fallible steps:
IRQ-mode configuration, IRQ-handler registration, address-range
validation, mapping, IRQ unmask), the teardown procedure has run before
the return: the final state has `regs` and `aspace` absent, the claim
flag is untouched, and the action trace ends with cleanup's clear-fields
step at exactly the returned state. -/
theorem startup_failure_unwind (env : StartupEnv) (s0 : DriverState) (st : Int)
    (hfail : st ≠ NO_ERROR)
    (hret : (pch_thermal_startup env s0).1 = Outcome.ret st) :
    ((pch_thermal_startup env s0).2.1).ctx.regs = none ∧
    ((pch_thermal_startup env s0).2.1).ctx.aspace = none ∧
    ((pch_thermal_startup env s0).2.1).ctx.device_claimed = s0.ctx.device_claimed ∧
    ∃ tr, (pch_thermal_startup env s0).2.2 =
      tr ++ [(Ev.clearFields, (pch_thermal_startup env s0).2.1)] :=
  startup_post_fail env s0 (pch_thermal_startup env s0).1
    (pch_thermal_startup env s0).2.1 (pch_thermal_startup env s0).2.2 rfl st hret hfail

/-- Helper: cleanup never performs the store-registers action. -/
lemma cleanup_no_store (dv : Bool) (s : DriverState) :
    Ev.storeRegs ∉ (pch_thermal_cleanup dv s).2.map Prod.fst := by
  unfold pch_thermal_cleanup
  by_cases hr : s.ctx.regs.isSome <;> cases dv <;> simp [hr]

/-- Helper: the threshold step writes only `ctt`, never `tsel`. -/
lemma threshold_step_tsel (hw : PchThermalRegisters) :
    (threshold_step hw).tsel = hw.tsel := by
  by_cases h : decode_temp (hw.ctt &&& 0x1ff) ≥ 113 <;> simp [threshold_step, h]

/-- Helper: setting bit 0 by read-modify-write leaves an odd byte. -/
lemma lor_one_odd (x : Nat) : ((x ||| 1) % 256) % 2 = 1 := by
  rw [Nat.mod_mod_of_dvd _ (by norm_num)]
  have h : (x ||| 1).testBit 0 = true := by
    rw [Nat.testBit_lor]
    simp
  rw [Nat.testBit_zero] at h
  exact of_decide_eq_true h

/-- Helper: in a failing `finished:` branch whose accumulated trace has
no store-registers action, the returned state has `regs` absent and the
whole trace still has no store-registers action. -/
lemma c4_fail_branch (X st : Int) (hX : X ≠ NO_ERROR) (sp : DriverState)
    (trp : List (Ev × DriverState)) (hnostore : Ev.storeRegs ∉ trp.map Prod.fst)
    (s : DriverState) (tr : List (Ev × DriverState))
    (heq : startup_finish X sp trp = (Outcome.ret st, s, tr)) :
    (s.ctx.regs.isSome = true ↔ st = NO_ERROR) ∧
    (s.ctx.regs.isSome = true → s.hw.tsel % 2 = 1) ∧
    (Ev.storeRegs ∈ tr.map Prod.fst → False) := by
  unfold startup_finish at heq
  rw [if_pos hX] at heq
  simp only [Prod.mk.injEq, Outcome.ret.injEq] at heq
  obtain ⟨hstx, hs, htr⟩ := heq
  subst hstx hs htr
  obtain ⟨h1, h2, h3, tr3, htr3⟩ := cleanup_post true sp
  refine ⟨?_, ?_, ?_⟩
  · rw [h1]
    simp only [Option.isSome_none, Bool.false_eq_true, false_iff]
    exact hX
  · rw [h1]
    simp
  · intro hmem
    rw [List.map_append] at hmem
    rcases List.mem_append.mp hmem with hm | hm
    · exact hnostore hm
    · exact cleanup_no_store true sp hm

/-- Helper: branch analysis of startup for the register/sensor ordering:
at any return, `regs` is present exactly on success and then the sensor
bit is set; and whenever the store-registers action happened, the action
order was aspace, MMIO-enable, store-registers, enable-sensor, clamp,
trip-enable (followed by the cleanup actions when the unmask step then
failed). -/
lemma startup_post_order (env : StartupEnv) (s0 : DriverState) (o : Outcome)
    (s : DriverState) (tr : List (Ev × DriverState))
    (heq : pch_thermal_startup env s0 = (o, s, tr)) (st : Int)
    (ho : o = Outcome.ret st) :
    (s.ctx.regs.isSome = true ↔ st = NO_ERROR) ∧
    (s.ctx.regs.isSome = true → s.hw.tsel % 2 = 1) ∧
    (Ev.storeRegs ∈ tr.map Prod.fst →
      tr.map Prod.fst =
        [Ev.setAspace, Ev.mmioEnable, Ev.storeRegs, Ev.enableSensor,
         Ev.clampCtt, Ev.writeTsc] ∨
      tr.map Prod.fst =
        [Ev.setAspace, Ev.mmioEnable, Ev.storeRegs, Ev.enableSensor,
         Ev.clampCtt, Ev.writeTsc, Ev.irqDisable, Ev.clearSensor,
         Ev.unmapRegs, Ev.clearFields]) := by
  subst ho
  unfold pch_thermal_startup at heq
  split at heq
  · simp at heq
  · split at heq
    · simp at heq
    · split at heq
      · simp at heq
      · split at heq
        · simp at heq
        · split at heq
          next hc =>
            obtain ⟨ha, hb, hm⟩ := c4_fail_branch _ st hc _ _ (by simp) _ _ heq
            exact ⟨ha, hb, fun h => absurd h hm⟩
          · split at heq
            next hc =>
              obtain ⟨ha, hb, hm⟩ := c4_fail_branch _ st hc _ _ (by simp) _ _ heq
              exact ⟨ha, hb, fun h => absurd h hm⟩
            · split at heq
              · obtain ⟨ha, hb, hm⟩ := c4_fail_branch _ st
                  (by decide : ERR_INVALID_ARGS ≠ NO_ERROR) _ _ (by simp) _ _ heq
                exact ⟨ha, hb, fun h => absurd h hm⟩
              · split at heq
                next hc =>
                  obtain ⟨ha, hb, hm⟩ := c4_fail_branch _ st hc _ _ (by simp) _ _ heq
                  exact ⟨ha, hb, fun h => absurd h hm⟩
                · split at heq
                  · simp at heq
                  · by_cases hu : env.unmask_status = NO_ERROR
                    · unfold startup_finish at heq
                      rw [if_neg (fun hne => hne hu)] at heq
                      simp only [Prod.mk.injEq, Outcome.ret.injEq] at heq
                      obtain ⟨hstx, hs, htr⟩ := heq
                      subst hs htr
                      refine ⟨⟨fun _ => hstx ▸ hu, fun _ => rfl⟩, fun _ => ?_, fun _ => ?_⟩
                      · simp [threshold_step_tsel, lor_one_odd]
                      · left
                        simp
                    · unfold startup_finish at heq
                      rw [if_pos hu] at heq
                      simp only [Prod.mk.injEq, Outcome.ret.injEq] at heq
                      obtain ⟨hstx, hs, htr⟩ := heq
                      subst hs htr
                      obtain ⟨h1, h2, h3, tr3, htr3⟩ := cleanup_post true _
                      refine ⟨?_, ?_, fun _ => ?_⟩
                      · rw [h1]
                        simp only [Option.isSome_none, Bool.false_eq_true, false_iff]
                        exact fun hst0 => hu (hstx.trans hst0)
                      · rw [h1]
                        simp
                      · right
                        simp [pch_thermal_cleanup]

/-- Witness for C2: the mapping step fails (simulated VMM failure);
afterwards `regs` is absent and the claim flag is still set. -/
theorem startup_failure_unwind_witness :
    ((pch_thermal_startup env_map_fail claimed_state).2.1).ctx.regs = none ∧
    ((pch_thermal_startup env_map_fail claimed_state).2.1).ctx.device_claimed = true := by
  have h := startup_failure_unwind env_map_fail claimed_state (-1) (by decide) (by decide)
  exact ⟨h.1, h.2.2.1⟩

/-- C4, counterexample: the claim that every point with `regs` non-absent
already has the sensor-enable bit set is false — in a fully successful
startup from `tsel = 0`, the state right after the store-registers action
has `regs` present while `tsel` bit 0 is still clear (the code stores the
pointer first and only then sets the sensor bit). -/
theorem startup_sensor_order_cx :
    ¬ (∀ p ∈ (pch_thermal_startup env_ok claimed_state).2.2,
        (p.2.ctx.regs.isSome = true → p.2.hw.tsel % 2 = 1)) := by
  decide

/-- C4, amended: at every return of startup, `regs` is non-absent exactly
on success and then the sensor-enable bit is set; whenever the mapped
pointer was stored, the sensor-enable action is the immediately following
action (store first, enable right after). -/
theorem startup_sensor_order_amended (env : StartupEnv) (s0 : DriverState) (st : Int)
    (hret : (pch_thermal_startup env s0).1 = Outcome.ret st) :
    (((pch_thermal_startup env s0).2.1).ctx.regs.isSome = true ↔ st = NO_ERROR) ∧
    (((pch_thermal_startup env s0).2.1).ctx.regs.isSome = true →
      ((pch_thermal_startup env s0).2.1).hw.tsel % 2 = 1) ∧
    (Ev.storeRegs ∈ (pch_thermal_startup env s0).2.2.map Prod.fst →
      (pch_thermal_startup env s0).2.2.map Prod.fst =
        [Ev.setAspace, Ev.mmioEnable, Ev.storeRegs, Ev.enableSensor,
         Ev.clampCtt, Ev.writeTsc] ∨
      (pch_thermal_startup env s0).2.2.map Prod.fst =
        [Ev.setAspace, Ev.mmioEnable, Ev.storeRegs, Ev.enableSensor,
         Ev.clampCtt, Ev.writeTsc, Ev.irqDisable, Ev.clearSensor,
         Ev.unmapRegs, Ev.clearFields]) :=
  startup_post_order env s0 (pch_thermal_startup env s0).1
    (pch_thermal_startup env s0).2.1 (pch_thermal_startup env s0).2.2 rfl st hret

/-- Witness for amended C4: after the fully successful startup, `regs`
is present and the sensor bit is set. -/
theorem startup_sensor_order_amended_witness :
    ((pch_thermal_startup env_ok claimed_state).2.1).ctx.regs.isSome = true ∧
    ((pch_thermal_startup env_ok claimed_state).2.1).hw.tsel % 2 = 1 := by
  have h := startup_sensor_order_amended env_ok claimed_state NO_ERROR (by decide)
  exact ⟨h.1.mpr rfl, h.2.1 (h.1.mpr rfl)⟩

/-- C8, counterexample: with BAR 0 missing, startup halts at a fatal
`DEBUG_ASSERT` rather than returning `ERR_INVALID_ARGS`; and with a
present but zero-sized BAR 0 startup does not fail at all (it returns
`NO_ERROR` when every later step succeeds). -/
theorem bar_query_cx :
    (pch_thermal_startup env_no_bar claimed_state).1 = Outcome.assertFail ∧
    (pch_thermal_startup env_no_bar claimed_state).1 ≠ Outcome.ret ERR_INVALID_ARGS ∧
    (pch_thermal_startup env_zero_size claimed_state).1 = Outcome.ret NO_ERROR := by
  refine ⟨by decide, by decide, by decide⟩

/-- C8, amended: a missing BAR 0, or one whose bus address is zero, is
treated as a fatal internal-consistency assertion (no status is
returned); a zero size alone is not checked by this guard. -/
theorem bar_guard_amended (env : StartupEnv) (s0 : DriverState)
    (hregs : s0.ctx.regs.isSome = false) (hbound : env.driver_ctx_bound = true)
    (hbad : env.bar = none ∨ ∃ bar, env.bar = some bar ∧ bar.bus_addr = 0) :
    (pch_thermal_startup env s0).1 = Outcome.assertFail := by
  rcases hbad with hnb | ⟨bar, hb, hz⟩
  · simp [pch_thermal_startup, hregs, hbound, hnb]
  · simp [pch_thermal_startup, hregs, hbound, hb, hz]

/-- Witness for amended C8 at the concrete missing-BAR environment. -/
theorem bar_guard_amended_witness :
    (pch_thermal_startup env_no_bar claimed_state).1 = Outcome.assertFail :=
  bar_guard_amended env_no_bar claimed_state rfl rfl (Or.inl rfl)

/-- C9: full lifecycle — from the initial singleton, probe with a
supported identity is granted, startup succeeds whenever every external
framework call succeeds, shutdown then release restore exactly the
initial claim state (`claimed` false, `regs` and `aspace` absent), and
the same identity is granted the claim again by a subsequent probe. -/
theorem full_lifecycle_roundtrip (env : StartupEnv) (hw0 : PchThermalRegisters)
    (hbound : env.driver_ctx_bound = true) (bar : BarInfo) (hbar : env.bar = some bar)
    (hba : ¬ bar.bus_addr = 0) (hm : env.irq_mode_status = NO_ERROR)
    (hr : env.irq_register_status = NO_ERROR) (hpa : ¬ bar.bus_addr > env.paddrMax)
    (hsz : ¬ roundupPage bar.size > env.sizeMax) (ha : env.alloc_status = NO_ERROR)
    (hv : ¬ env.vaddr = 0) (hu : env.unmask_status = NO_ERROR) :
    (pch_thermal_probe dev_supported (initial_state hw0)).1 = some Handle.theSingleton ∧
    (pch_thermal_startup env (pch_thermal_probe dev_supported (initial_state hw0)).2).1 =
      Outcome.ret NO_ERROR ∧
    (∃ c, pch_thermal_shutdown true
        (pch_thermal_startup env
          (pch_thermal_probe dev_supported (initial_state hw0)).2).2.1 = some c ∧
      ∃ s4, pch_thermal_release true c.1 = some s4 ∧
        s4.ctx = (initial_state hw0).ctx ∧
        (pch_thermal_probe dev_supported s4).1 = some Handle.theSingleton) := by
  have hs1 : (pch_thermal_startup env
        { ctx := { device_claimed := true, aspace := none, regs := none },
          hw := hw0 }).1 = Outcome.ret NO_ERROR ∧
      ((pch_thermal_startup env
        { ctx := { device_claimed := true, aspace := none, regs := none },
          hw := hw0 }).2.1).ctx =
        { device_claimed := true, aspace := some env.kernel_aspace,
          regs := some env.vaddr } := by
    unfold pch_thermal_startup
    simp [startup_finish, hbar, hbound, hba, hm, hr, hpa, hsz, ha, hv, hu]
  obtain ⟨h1, h2⟩ := hs1
  have hcl : ((pch_thermal_cleanup true (pch_thermal_startup env
        { ctx := { device_claimed := true, aspace := none, regs := none },
          hw := hw0 }).2.1).1).ctx =
      { device_claimed := true, aspace := none, regs := none } := by
    simp [pch_thermal_cleanup, h2]
  refine ⟨rfl, h1, pch_thermal_cleanup true (pch_thermal_startup env
      { ctx := { device_claimed := true, aspace := none, regs := none },
        hw := hw0 }).2.1, rfl,
    { (pch_thermal_cleanup true (pch_thermal_startup env
        { ctx := { device_claimed := true, aspace := none, regs := none },
          hw := hw0 }).2.1).1 with
      ctx := { device_claimed := false, aspace := none, regs := none } }, ?_, rfl, rfl⟩
  simp [pch_thermal_release, hcl]

/-- Witness for C9 at the concrete all-success environment and all-zero
hardware registers. -/
theorem full_lifecycle_roundtrip_witness :
    (pch_thermal_probe dev_supported
        (initial_state { tsel := 0, ctt := 0, tsc := 0 })).1 = some Handle.theSingleton ∧
    (pch_thermal_startup env_ok (pch_thermal_probe dev_supported
        (initial_state { tsel := 0, ctt := 0, tsc := 0 })).2).1 = Outcome.ret NO_ERROR ∧
    (∃ c, pch_thermal_shutdown true
        (pch_thermal_startup env_ok (pch_thermal_probe dev_supported
          (initial_state { tsel := 0, ctt := 0, tsc := 0 })).2).2.1 = some c ∧
      ∃ s4, pch_thermal_release true c.1 = some s4 ∧
        s4.ctx = (initial_state { tsel := 0, ctt := 0, tsc := 0 }).ctx ∧
        (pch_thermal_probe dev_supported s4).1 = some Handle.theSingleton) :=
  full_lifecycle_roundtrip env_ok { tsel := 0, ctt := 0, tsc := 0 } rfl
    { bus_addr := 0x1000, size := 0x100 } rfl (by decide) rfl rfl
    (by decide) (by decide) rfl (by decide) rfl

end PchThermal
